import Mathlib

/-!
Shallow embedding of `src/ctr_predict_app.py`, a single-script Streamlit app
that loads a pre-trained CTR model bundle, collects a form input, encodes it
into the feature row the model expects, and renders the prediction.

Conventions of the embedding:
* A fitted scikit-learn `LabelEncoder` is its list of known classes;
  `transform` returns the index of a value in that list, or `none` where the
  Python call would raise (unknown value).
* Python dictionaries (`label_encoders`, `frequency_maps`, and each frequency
  table) are association lists; `dict[k]` raising a `KeyError` is `none`.
* Numeric feature values are rationals (`Rat`), covering the ints and floats
  the script mixes.
* The classifier held in the pickle artifact is not part of `src/`; it is
  modelled from the spec (see `Model`).
-/

set_option autoImplicit false

namespace CTRApp

/-- A fitted label encoder: the fixed vocabulary of known category values
(`classes_` in scikit-learn). -/
structure LabelEncoder where
  classes : List String
deriving Repr, DecidableEq

/-- `label_encoders[field].transform([v])[0]`: index of `v` in the vocabulary,
`none` where the Python call raises because `v` is unknown. -/
def LabelEncoder.transform (e : LabelEncoder) (v : String) : Option Nat :=
  e.classes.indexOf? v

/-- A frequency table: category value mapped to its observed count. -/
abbrev FreqMap := List (String × Nat)

/--
Modelled from the spec: the fitted classifier inside the pickle artifact is
not in `src/`. Per the spec it is a fitted binary classifier exposing
`predict` (a class label in `{0,1}`) and `predict_proba` (class probabilities,
the positive-class entry lying in `[0,1]`). It is modelled as an ensemble of
boolean voters over the feature row: the positive-class probability is the
fraction of positive votes and the predicted label is the majority vote.
-/
structure Model where
  trees : List (List (String × Rat) → Bool)

/-- `model.predict_proba(input_df)[0][1]`: fraction of positive votes. -/
def Model.predict_proba1 (m : Model) (row : List (String × Rat)) : Rat :=
  ((m.trees.countP (fun t => t row) : Nat) : Rat) / ((m.trees.length : Nat) : Rat)

/-- `model.predict(input_df)[0]`: majority vote, `1` or `0`. -/
def Model.predict (m : Model) (row : List (String × Rat)) : Nat :=
  if m.trees.length < 2 * m.trees.countP (fun t => t row) then 1 else 0

/-- The artifact bundle `ctr_model_complete-2.pkl`: fitted model, per-field
label encoders, per-field frequency tables, expected feature column order,
and the optional feature-importance table. -/
structure Artifacts where
  model : Model
  label_encoders : List (String × LabelEncoder)
  frequency_maps : List (String × FreqMap)
  feature_columns : List String
  feature_importance : Option (List (String × Rat)) := none

/-- One submission of the input form: the widget values the script reads. -/
structure RawInput where
  age : Nat
  gender : String
  area_income : Rat
  daily_time_spent : Rat
  daily_internet_usage : Rat
  city : String
  country : String
  ad_topic : String
  hour_of_day : Nat
  day_of_month : Nat
  day_of_week : Nat
  month : Nat

/-- The `try: input_data[...] = label_encoders[field].transform([v])[0]
except: ... = 0` pattern: a missing encoder key or an unknown value both
degrade to `0`. -/
def encLookup (encs : List (String × LabelEncoder)) (field v : String) : Nat :=
  match encs.lookup field with
  | some e => (e.transform v).getD 0
  | none => 0

/-- Lines 67–102: assembly of `input_data` in the script's insertion order.
`frequency_maps['city']` and `frequency_maps['country']` are bare dictionary
indexing outside any inner `try`, so a missing key aborts the submission
handler (propagates to the outer `except`): hence the `Option`. -/
def buildInputData (a : Artifacts) (inp : RawInput) : Option (List (String × Rat)) := do
  let cityFreq ← a.frequency_maps.lookup "city"
  let countryFreq ← a.frequency_maps.lookup "country"
  pure [("DailyTime_Spent_on_Site", inp.daily_time_spent),
        ("Age", (inp.age : Rat)),
        ("Area_Income", inp.area_income),
        ("Daily_Internet_Usage", inp.daily_internet_usage),
        ("day_of_month", (inp.day_of_month : Rat)),
        ("hour_of_day", (inp.hour_of_day : Rat)),
        ("day_of_week", (inp.day_of_week : Rat)),
        ("month", (inp.month : Rat)),
        ("City_frequency", ((cityFreq.lookup inp.city).getD 1 : Nat)),
        ("Country_frequency", ((countryFreq.lookup inp.country).getD 1 : Nat)),
        ("City_encoded", (encLookup a.label_encoders "city" inp.city : Nat)),
        ("Country_encoded", (encLookup a.label_encoders "country" inp.country : Nat)),
        ("Ad_Topic_encoded", (encLookup a.label_encoders "ad_topic" inp.ad_topic : Nat)),
        ("Gender_encoded", if inp.gender = "Male" then (1 : Rat) else 0)]

/-- Line 108: `input_df.reindex(columns=feature_columns, fill_value=0)` on a
single-row frame: the result has exactly the requested columns in order,
taking the row's value where the column exists and `0` otherwise. -/
def reindex (row : List (String × Rat)) (cols : List String) : List (String × Rat) :=
  cols.map (fun c => (c, (row.lookup c).getD 0))

/-- Outcome of one successful submission: lines 110–112. -/
structure PredictionResult where
  features : List (String × Rat)
  label : Nat
  probability : Rat

/-- The submission handler's compute part (lines 64–112): build `input_data`,
reindex against `feature_columns`, call the model. `none` is the outer
`except` path. -/
def runSubmission (a : Artifacts) (inp : RawInput) : Option PredictionResult := do
  let row ← buildInputData a inp
  let df := reindex row a.feature_columns
  pure { features := df
         label := a.model.predict df
         probability := a.model.predict_proba1 df }

/-- Lines 130–135: the tiered qualitative insight message. -/
def insightMessage (p : Rat) : String :=
  if p > 7/10 then
    "Excellent targeting! This user profile shows high engagement potential."
  else if p > 1/2 then
    "Moderate targeting. Consider optimizing ad content or timing."
  else
    "Poor targeting. This user profile is unlikely to engage."

/-- Lines 46–48: hardcoded fallback city list. -/
def fallbackCities : List String := ["New York", "Los Angeles", "Chicago"]

/-- Lines 46–48: hardcoded fallback country list. -/
def fallbackCountries : List String := ["United States", "Canada", "United Kingdom"]

/-- Lines 46–48: hardcoded fallback ad-topic list. -/
def fallbackAdTopics : List String := ["Technology", "Fashion", "Sports"]

/-- Lines 41–48: the selectbox vocabularies. One `try` covers all three
reads, so if any encoder key is missing all three lists fall back. -/
def formChoices (encs : List (String × LabelEncoder)) :
    List String × List String × List String :=
  match encs.lookup "city", encs.lookup "country", encs.lookup "ad_topic" with
  | some c, some co, some a => (c.classes, co.classes, a.classes)
  | _, _, _ => (fallbackCities, fallbackCountries, fallbackAdTopics)

/-- What the top level of the script renders: lines 6–16 (loader) and
18–62 (title and form) and 64–144 (submission). -/
structure AppOutput where
  loadErrorShown : Bool
  halted : Bool
  formRendered : Bool
  predictionAttempted : Bool
  result : Option PredictionResult

/-- The whole script, lines 6–144: `joblib.load` failure (the `none` case of
`load`) shows an error and `st.stop()` halts before the form; otherwise the
form renders and a submission runs the handler. -/
def runApp (load : Option Artifacts) (submitted : Bool) (inp : RawInput) : AppOutput :=
  match load with
  | none =>
    { loadErrorShown := true, halted := true, formRendered := false
      predictionAttempted := false, result := none }
  | some a =>
    { loadErrorShown := false, halted := false, formRendered := true
      predictionAttempted := submitted
      result := if submitted then runSubmission a inp else none }

/-- Spec §8's end-to-end example input. -/
def exampleInput : RawInput :=
  { age := 30, gender := "Male", area_income := 50000, daily_time_spent := 50
    daily_internet_usage := 150, city := "New York", country := "United States"
    ad_topic := "Technology", hour_of_day := 12, day_of_month := 15
    day_of_week := 3, month := 6 }

/-! Concrete sample artifacts realizing the encoder/frequency mappings the
spec's §8 example states (New York ↦ index 2 / count 120, United States ↦
index 0 / count 300), used to instantiate the theorems below. -/

/-- Sample city encoder: "New York" at index 2. -/
def sampleCityEnc : LabelEncoder := ⟨["Chicago", "Los Angeles", "New York"]⟩

/-- Sample country encoder: "United States" at index 0. -/
def sampleCountryEnc : LabelEncoder := ⟨["United States", "Canada", "United Kingdom"]⟩

/-- Sample ad-topic encoder: "Technology" at index 1. -/
def sampleAdEnc : LabelEncoder := ⟨["Fashion", "Technology", "Sports"]⟩

/-- Sample two-voter model. -/
def sampleModel : Model := ⟨[fun _ => true, fun _ => false]⟩

/-- A concrete artifact bundle. `extra_feature` is a column of
`feature_columns` that the encoder never sets. -/
def sampleArtifacts : Artifacts :=
  { model := sampleModel
    label_encoders :=
      [("city", sampleCityEnc), ("country", sampleCountryEnc), ("ad_topic", sampleAdEnc)]
    frequency_maps :=
      [("city", [("New York", 120), ("Los Angeles", 80)]),
       ("country", [("United States", 300)])]
    feature_columns :=
      ["DailyTime_Spent_on_Site", "Age", "Area_Income", "Daily_Internet_Usage",
       "day_of_month", "hour_of_day", "day_of_week", "month",
       "City_frequency", "Country_frequency", "City_encoded", "Country_encoded",
       "Ad_Topic_encoded", "Gender_encoded", "extra_feature"] }

/-- The feature record the encoder assembles for the sample bundle and the
spec's example input. -/
def sampleRow : List (String × Rat) :=
  (buildInputData sampleArtifacts exampleInput).getD []

/-! Helper lemmas about association-list lookup. -/

/-- Looking up a key of a keyed map over its own column list yields the
generated value. -/
theorem lookup_keyed_map (g : String → Rat) (cols : List String) (c : String)
    (hc : c ∈ cols) :
    (cols.map (fun x => (x, g x))).lookup c = some (g c) := by
  induction cols with
  | nil => cases hc
  | cons x xs ih =>
    rcases List.mem_cons.mp hc with rfl | hmem
    · simp [List.lookup_cons]
    · by_cases hxc : c = x
      · subst hxc; simp [List.lookup_cons]
      · simp [List.lookup_cons, beq_eq_false_iff_ne.mpr hxc, ih hmem]

/-- A key absent from the key column of an association list looks up to
`none`. -/
theorem lookup_eq_none_of_not_mem_keys (row : List (String × Rat)) (c : String)
    (h : c ∉ row.map Prod.fst) : row.lookup c = none := by
  induction row with
  | nil => rfl
  | cons p ps ih =>
    obtain ⟨k, v⟩ := p
    simp only [List.map_cons, List.mem_cons, not_or] at h
    simp [List.lookup_cons, beq_eq_false_iff_ne.mpr h.1, ih h.2]

/-- C1: for every submitted input record, after reindexing against the
bundle's `feature_columns` list, the single-row feature table has exactly the
columns of `feature_columns`, in that order, and every column of
`feature_columns` the encoder did not set carries the value `0`. -/
theorem reindexed_columns_exact (a : Artifacts) (inp : RawInput)
    (row : List (String × Rat)) (h : buildInputData a inp = some row) :
    (reindex row a.feature_columns).map Prod.fst = a.feature_columns ∧
    ∀ c ∈ a.feature_columns, c ∉ row.map Prod.fst →
      (reindex row a.feature_columns).lookup c = some 0 := by
  constructor
  · simp [reindex, List.map_map, Function.comp_def]
  · intro c hc hnot
    rw [reindex, lookup_keyed_map _ _ _ hc]
    simp [lookup_eq_none_of_not_mem_keys _ _ hnot]

/-- C1 witness: the sample bundle at the example input; `extra_feature` is in
`feature_columns` but unset by the encoder, and the reindexed table gives it
`0`. -/
theorem reindexed_columns_exact_witness :
    (reindex sampleRow sampleArtifacts.feature_columns).map Prod.fst
        = sampleArtifacts.feature_columns ∧
    (reindex sampleRow sampleArtifacts.feature_columns).lookup "extra_feature"
        = some 0 :=
  ⟨(reindexed_columns_exact sampleArtifacts exampleInput sampleRow rfl).1,
   (reindexed_columns_exact sampleArtifacts exampleInput sampleRow rfl).2
     "extra_feature" (by decide) (by decide)⟩

/-- Destructuring of a successful `buildInputData`: the frequency-map lookups
succeeded and the row is the explicit fourteen-entry record of lines 70–102. -/
theorem buildInputData_eq_some (a : Artifacts) (inp : RawInput)
    (row : List (String × Rat)) (h : buildInputData a inp = some row) :
    ∃ cf cof : FreqMap,
      a.frequency_maps.lookup "city" = some cf ∧
      a.frequency_maps.lookup "country" = some cof ∧
      row = [("DailyTime_Spent_on_Site", inp.daily_time_spent),
             ("Age", (inp.age : Rat)),
             ("Area_Income", inp.area_income),
             ("Daily_Internet_Usage", inp.daily_internet_usage),
             ("day_of_month", (inp.day_of_month : Rat)),
             ("hour_of_day", (inp.hour_of_day : Rat)),
             ("day_of_week", (inp.day_of_week : Rat)),
             ("month", (inp.month : Rat)),
             ("City_frequency", (((cf.lookup inp.city).getD 1 : Nat) : Rat)),
             ("Country_frequency", (((cof.lookup inp.country).getD 1 : Nat) : Rat)),
             ("City_encoded", ((encLookup a.label_encoders "city" inp.city : Nat) : Rat)),
             ("Country_encoded", ((encLookup a.label_encoders "country" inp.country : Nat) : Rat)),
             ("Ad_Topic_encoded", ((encLookup a.label_encoders "ad_topic" inp.ad_topic : Nat) : Rat)),
             ("Gender_encoded", if inp.gender = "Male" then (1 : Rat) else 0)] := by
  cases hcf : a.frequency_maps.lookup "city" with
  | none => simp [buildInputData, hcf] at h
  | some cf =>
    cases hcof : a.frequency_maps.lookup "country" with
    | none => simp [buildInputData, hcf, hcof] at h
    | some cof =>
      simp only [buildInputData, hcf, hcof, Option.bind_eq_bind, Option.some_bind,
        Option.pure_def, Option.some.injEq] at h
      exact ⟨cf, cof, rfl, rfl, h.symm⟩

/-- C4: the assembled record's `Gender_encoded` feature is `1` exactly when
the submitted gender is the string "Male", and `0` for any other value. -/
theorem gender_encoded_binary (a : Artifacts) (inp : RawInput)
    (row : List (String × Rat)) (h : buildInputData a inp = some row) :
    row.lookup "Gender_encoded" = some (if inp.gender = "Male" then 1 else 0) := by
  obtain ⟨cf, cof, hcf, hcof, hrow⟩ := buildInputData_eq_some a inp row h
  subst hrow
  simp [List.lookup_cons]

/-- C4 witness: the sample bundle at the example input (gender "Male") and at
the same input with gender "Female". -/
theorem gender_encoded_binary_witness :
    sampleRow.lookup "Gender_encoded" = some 1 ∧
    ((buildInputData sampleArtifacts { exampleInput with gender := "Female" }).getD
        []).lookup "Gender_encoded" = some 0 :=
  ⟨by
    have := gender_encoded_binary sampleArtifacts exampleInput sampleRow rfl
    simpa using this,
   by
    have := gender_encoded_binary sampleArtifacts
      { exampleInput with gender := "Female" }
      ((buildInputData sampleArtifacts { exampleInput with gender := "Female" }).getD [])
      rfl
    simpa using this⟩

/-- C5: the rendered insight message is selected by the strict thresholds of
lines 130–135: "excellent" for `p > 0.7`, "moderate" for `0.5 < p ≤ 0.7`,
"poor" for `p ≤ 0.5`; the three messages are pairwise distinct, so exactly
one of them is rendered for each probability. -/
theorem insight_tiers (p : Rat) :
    (7/10 < p →
      insightMessage p
        = "Excellent targeting! This user profile shows high engagement potential.") ∧
    (1/2 < p ∧ p ≤ 7/10 →
      insightMessage p
        = "Moderate targeting. Consider optimizing ad content or timing.") ∧
    (p ≤ 1/2 →
      insightMessage p
        = "Poor targeting. This user profile is unlikely to engage.") ∧
    ("Excellent targeting! This user profile shows high engagement potential."
        ≠ "Moderate targeting. Consider optimizing ad content or timing." ∧
     "Moderate targeting. Consider optimizing ad content or timing."
        ≠ "Poor targeting. This user profile is unlikely to engage." ∧
     "Excellent targeting! This user profile shows high engagement potential."
        ≠ "Poor targeting. This user profile is unlikely to engage.") := by
  refine ⟨fun hgt => ?_, fun ⟨hlo, hhi⟩ => ?_, fun hle => ?_, by decide, by decide, by decide⟩
  · rw [insightMessage, if_pos hgt]
  · rw [insightMessage, if_neg (not_lt.mpr hhi), if_pos hlo]
  · have h1 : ¬ p > 7/10 := by simp only [gt_iff_lt, not_lt]; linarith
    rw [insightMessage, if_neg h1, if_neg (not_lt.mpr hle)]

/-- C5 witness: the three tiers at `p = 4/5`, `p = 3/5`, `p = 1/5`. -/
theorem insight_tiers_witness :
    insightMessage (4/5)
      = "Excellent targeting! This user profile shows high engagement potential." ∧
    insightMessage (3/5)
      = "Moderate targeting. Consider optimizing ad content or timing." ∧
    insightMessage (1/5)
      = "Poor targeting. This user profile is unlikely to engage." :=
  ⟨(insight_tiers (4/5)).1 (by norm_num),
   (insight_tiers (3/5)).2.1 ⟨by norm_num, by norm_num⟩,
   (insight_tiers (1/5)).2.2.1 (by norm_num)⟩

/-- C6: for every model and feature row, the positive-class probability lies
in `[0,1]` and the predicted label is `0` or `1`. -/
theorem prediction_outputs_valid (m : Model) (row : List (String × Rat)) :
    0 ≤ m.predict_proba1 row ∧ m.predict_proba1 row ≤ 1 ∧
    (m.predict row = 0 ∨ m.predict row = 1) := by
  refine ⟨div_nonneg (Nat.cast_nonneg _) (Nat.cast_nonneg _), ?_, ?_⟩
  · rcases Nat.eq_zero_or_pos m.trees.length with hz | hpos
    · simp [Model.predict_proba1, hz]
    · rw [Model.predict_proba1, div_le_one (by exact_mod_cast hpos)]
      exact_mod_cast m.trees.countP_le_length _
  · rw [Model.predict]
    by_cases hv : m.trees.length < 2 * m.trees.countP (fun t => t row)
    · exact Or.inr (if_pos hv)
    · exact Or.inl (if_neg hv)

/-- C7: when loading the artifact bundle fails, the script reports an error
and halts: no form is rendered, no prediction is attempted, and there is no
result, whatever submission would have followed. -/
theorem load_failure_halts (submitted : Bool) (inp : RawInput) :
    (runApp none submitted inp).loadErrorShown = true ∧
    (runApp none submitted inp).halted = true ∧
    (runApp none submitted inp).formRendered = false ∧
    (runApp none submitted inp).predictionAttempted = false ∧
    (runApp none submitted inp).result = none := by
  simp [runApp]

/-- A value outside the vocabulary makes `transform` fail (the Python call
raises). -/
theorem transform_eq_none {e : LabelEncoder} {v : String} (h : v ∉ e.classes) :
    e.transform v = none := by
  rw [LabelEncoder.transform, List.indexOf?_eq_none_iff]
  intro x hx
  simp only [beq_iff_eq]
  exact fun he => h (he ▸ hx)

/-- Input with a city and country the sample bundle has never seen. -/
def unseenInput : RawInput := { exampleInput with city := "Atlantis", country := "Elbonia" }

/-- Bundle whose city frequency table contains a key ("Atlantis") that the
city encoder's vocabulary does not. -/
def cexArtifacts : Artifacts :=
  { sampleArtifacts with
    frequency_maps := [("city", [("Atlantis", 7)]), ("country", [("United States", 300)])] }

/-- Input selecting that out-of-vocabulary city. -/
def cexInput : RawInput := { exampleInput with city := "Atlantis" }

/-- C2 counterexample: "Atlantis" is outside the city encoder's vocabulary,
so `City_encoded` defaults to `0`, yet `City_frequency` is `7` — its count in
the frequency table — and not the claimed default `1`: the frequency default
is keyed on the frequency table, not on the encoder vocabulary. -/
theorem unseen_city_frequency_cex :
    cexArtifacts.label_encoders.lookup "city" = some sampleCityEnc ∧
    cexInput.city ∉ sampleCityEnc.classes ∧
    ((buildInputData cexArtifacts cexInput).getD []).lookup "City_encoded" = some 0 ∧
    ((buildInputData cexArtifacts cexInput).getD []).lookup "City_frequency" = some 7 ∧
    (7 : Rat) ≠ 1 :=
  ⟨rfl, by decide, by decide, by decide, by norm_num⟩

/-- C2 amended: for every submitted city (resp. country) outside the encoder
vocabulary, the encoder does not raise and the encoded index defaults to `0`,
unconditionally; the frequency defaults to `1` when the value is additionally
absent from the corresponding frequency table. Each field's conclusion
depends only on that field's own hypotheses. -/
theorem unseen_value_defaults (a : Artifacts) (inp : RawInput)
    (row : List (String × Rat)) (h : buildInputData a inp = some row) :
    (∀ ce : LabelEncoder, a.label_encoders.lookup "city" = some ce →
      inp.city ∉ ce.classes → row.lookup "City_encoded" = some 0) ∧
    (∀ coe : LabelEncoder, a.label_encoders.lookup "country" = some coe →
      inp.country ∉ coe.classes → row.lookup "Country_encoded" = some 0) ∧
    (∀ cf : FreqMap, a.frequency_maps.lookup "city" = some cf →
      cf.lookup inp.city = none → row.lookup "City_frequency" = some 1) ∧
    (∀ cof : FreqMap, a.frequency_maps.lookup "country" = some cof →
      cof.lookup inp.country = none → row.lookup "Country_frequency" = some 1) := by
  obtain ⟨cf', cof', hcf', hcof', hrow⟩ := buildInputData_eq_some a inp row h
  subst hrow
  refine ⟨?_, ?_, ?_, ?_⟩
  · intro ce hce hcity
    simp [List.lookup_cons, encLookup, hce, transform_eq_none hcity]
  · intro coe hcoe hcountry
    simp [List.lookup_cons, encLookup, hcoe, transform_eq_none hcountry]
  · intro cf hcf hl
    have ecf : cf' = cf := by rw [hcf'] at hcf; exact Option.some.inj hcf
    simp [List.lookup_cons, ecf, hl]
  · intro cof hcof hl
    have ecof : cof' = cof := by rw [hcof'] at hcof; exact Option.some.inj hcof
    simp [List.lookup_cons, ecof, hl]

/-- C2 amended witness: the encoded default fires for "Atlantis" even in the
bundle whose frequency table does contain "Atlantis" (the mixed case), and
for city "Atlantis" and country "Elbonia" under the sample bundle, where both
are absent from vocabulary and tables, all four defaults fire. -/
theorem unseen_value_defaults_witness :
    ((buildInputData cexArtifacts cexInput).getD []).lookup "City_encoded" = some 0 ∧
    ((buildInputData sampleArtifacts unseenInput).getD []).lookup "City_encoded" = some 0 ∧
    ((buildInputData sampleArtifacts unseenInput).getD []).lookup "City_frequency" = some 1 ∧
    ((buildInputData sampleArtifacts unseenInput).getD []).lookup "Country_encoded" = some 0 ∧
    ((buildInputData sampleArtifacts unseenInput).getD []).lookup "Country_frequency" = some 1 :=
  ⟨(unseen_value_defaults cexArtifacts cexInput
      ((buildInputData cexArtifacts cexInput).getD []) rfl).1
      sampleCityEnc rfl (by decide),
   (unseen_value_defaults sampleArtifacts unseenInput
      ((buildInputData sampleArtifacts unseenInput).getD []) rfl).1
      sampleCityEnc rfl (by decide),
   (unseen_value_defaults sampleArtifacts unseenInput
      ((buildInputData sampleArtifacts unseenInput).getD []) rfl).2.2.1
      [("New York", 120), ("Los Angeles", 80)] rfl (by decide),
   (unseen_value_defaults sampleArtifacts unseenInput
      ((buildInputData sampleArtifacts unseenInput).getD []) rfl).2.1
      sampleCountryEnc rfl (by decide),
   (unseen_value_defaults sampleArtifacts unseenInput
      ((buildInputData sampleArtifacts unseenInput).getD []) rfl).2.2.2
      [("United States", 300)] rfl (by decide)⟩

/-- C3: for every submitted city (resp. country) present in the encoder's
vocabulary, the encoded index equals the encoder's mapping for that value,
unconditionally; and whenever the value is additionally present in the
corresponding frequency table, the frequency equals the stored count. Each
field's conclusion depends only on that field's own hypotheses. -/
theorem known_value_encoding (a : Artifacts) (inp : RawInput)
    (row : List (String × Rat)) (h : buildInputData a inp = some row) :
    (∀ ce : LabelEncoder, a.label_encoders.lookup "city" = some ce →
      ∀ ci : Nat, ce.transform inp.city = some ci →
        row.lookup "City_encoded" = some (ci : Rat)) ∧
    (∀ coe : LabelEncoder, a.label_encoders.lookup "country" = some coe →
      ∀ co : Nat, coe.transform inp.country = some co →
        row.lookup "Country_encoded" = some (co : Rat)) ∧
    (∀ cf : FreqMap, a.frequency_maps.lookup "city" = some cf →
      ∀ nc : Nat, cf.lookup inp.city = some nc →
        row.lookup "City_frequency" = some (nc : Rat)) ∧
    (∀ cof : FreqMap, a.frequency_maps.lookup "country" = some cof →
      ∀ nco : Nat, cof.lookup inp.country = some nco →
        row.lookup "Country_frequency" = some (nco : Rat)) := by
  obtain ⟨cf', cof', hcf', hcof', hrow⟩ := buildInputData_eq_some a inp row h
  subst hrow
  refine ⟨?_, ?_, ?_, ?_⟩
  · intro ce hce ci hci
    simp [List.lookup_cons, encLookup, hce, hci]
  · intro coe hcoe co hco
    simp [List.lookup_cons, encLookup, hcoe, hco]
  · intro cf hcf nc hnc
    have ecf : cf' = cf := by rw [hcf'] at hcf; exact Option.some.inj hcf
    simp [List.lookup_cons, ecf, hnc]
  · intro cof hcof nco hnco
    have ecof : cof' = cof := by rw [hcof'] at hcof; exact Option.some.inj hcof
    simp [List.lookup_cons, ecof, hnco]

/-- Input whose city "Chicago" is in the sample vocabulary (index 0) but
absent from the sample city frequency table: the mixed case. -/
def chicagoInput : RawInput := { exampleInput with city := "Chicago" }

/-- C3 witness: the sample bundle at the example input ("New York" at index 2
with count 120, "United States" at index 0 with count 300), plus the mixed
case: "Chicago" is in the vocabulary (index 0) while absent from the
frequency table, and its encoded index is still the encoder's mapping. -/
theorem known_value_encoding_witness :
    sampleRow.lookup "City_encoded" = some 2 ∧
    sampleRow.lookup "Country_encoded" = some 0 ∧
    sampleRow.lookup "City_frequency" = some 120 ∧
    sampleRow.lookup "Country_frequency" = some 300 ∧
    ((buildInputData sampleArtifacts chicagoInput).getD []).lookup "City_encoded" = some 0 :=
  ⟨(known_value_encoding sampleArtifacts exampleInput sampleRow rfl).1
      sampleCityEnc rfl 2 (by decide),
   (known_value_encoding sampleArtifacts exampleInput sampleRow rfl).2.1
      sampleCountryEnc rfl 0 (by decide),
   (known_value_encoding sampleArtifacts exampleInput sampleRow rfl).2.2.1
      [("New York", 120), ("Los Angeles", 80)] rfl 120 (by decide),
   (known_value_encoding sampleArtifacts exampleInput sampleRow rfl).2.2.2
      [("United States", 300)] rfl 300 (by decide),
   (known_value_encoding sampleArtifacts chicagoInput
      ((buildInputData sampleArtifacts chicagoInput).getD []) rfl).1
      sampleCityEnc rfl 0 (by decide)⟩

/-- C8: if reading any of the three encoder vocabularies fails, the form
silently falls back to all three hardcoded lists. -/
theorem vocab_fallback (encs : List (String × LabelEncoder))
    (h : encs.lookup "city" = none ∨ encs.lookup "country" = none ∨
      encs.lookup "ad_topic" = none) :
    formChoices encs = (fallbackCities, fallbackCountries, fallbackAdTopics) := by
  unfold formChoices
  cases hc : encs.lookup "city" with
  | none => rfl
  | some c =>
    cases hco : encs.lookup "country" with
    | none => rfl
    | some cc =>
      cases ha : encs.lookup "ad_topic" with
      | none => rfl
      | some aa =>
        rw [hc, hco, ha] at h
        rcases h with h | h | h <;> simp at h

/-- C8 witness: an empty encoder table falls back to the hardcoded lists. -/
theorem vocab_fallback_witness :
    formChoices [] = (fallbackCities, fallbackCountries, fallbackAdTopics) :=
  vocab_fallback [] (Or.inl rfl)

/-- C9: under any bundle realizing the stated mappings ("New York" ↦ index 2,
count 120; "United States" ↦ index 0, count 300), the pipeline on the spec's
example input yields the stated feature values, and re-running the pipeline
on the same bundle and input yields the identical record, label and
probability. -/
theorem example_pipeline_deterministic (a : Artifacts)
    (row : List (String × Rat)) (h : buildInputData a exampleInput = some row)
    (ce : LabelEncoder) (hce : a.label_encoders.lookup "city" = some ce)
    (hci : ce.transform "New York" = some 2)
    (coe : LabelEncoder) (hcoe : a.label_encoders.lookup "country" = some coe)
    (hco : coe.transform "United States" = some 0)
    (cf : FreqMap) (hcf : a.frequency_maps.lookup "city" = some cf)
    (hnf : cf.lookup "New York" = some 120)
    (cof : FreqMap) (hcof : a.frequency_maps.lookup "country" = some cof)
    (hof : cof.lookup "United States" = some 300) :
    buildInputData a exampleInput = some row ∧
    row.lookup "City_encoded" = some 2 ∧
    row.lookup "Country_encoded" = some 0 ∧
    row.lookup "Gender_encoded" = some 1 ∧
    row.lookup "City_frequency" = some 120 ∧
    row.lookup "Country_frequency" = some 300 ∧
    runSubmission a exampleInput = runSubmission a exampleInput := by
  obtain ⟨cf', cof', hcf', hcof', hrow⟩ := buildInputData_eq_some a exampleInput row h
  have ecf : cf' = cf := by rw [hcf'] at hcf; exact Option.some.inj hcf
  have ecof : cof' = cof := by rw [hcof'] at hcof; exact Option.some.inj hcof
  subst hrow
  refine ⟨h, ?_, ?_, ?_, ?_, ?_, rfl⟩ <;>
    simp [List.lookup_cons, encLookup, hce, hcoe, hci, hco, ecf, ecof, hnf, hof,
      exampleInput]

/-- C9 witness: the sample bundle realizes the stated mappings. -/
theorem example_pipeline_deterministic_witness :
    buildInputData sampleArtifacts exampleInput = some sampleRow ∧
    sampleRow.lookup "City_encoded" = some 2 ∧
    sampleRow.lookup "Country_encoded" = some 0 ∧
    sampleRow.lookup "Gender_encoded" = some 1 ∧
    sampleRow.lookup "City_frequency" = some 120 ∧
    sampleRow.lookup "Country_frequency" = some 300 ∧
    runSubmission sampleArtifacts exampleInput = runSubmission sampleArtifacts exampleInput :=
  example_pipeline_deterministic sampleArtifacts sampleRow rfl
    sampleCityEnc rfl (by decide)
    sampleCountryEnc rfl (by decide)
    [("New York", 120), ("Los Angeles", 80)] rfl (by decide)
    [("United States", 300)] rfl (by decide)

/-- Input selecting an ad topic the sample bundle has never seen. -/
def unseenTopicInput : RawInput := { exampleInput with ad_topic := "Quantum" }

/-- C10: for a submitted ad topic outside the ad-topic encoder's vocabulary,
encoding does not raise, `Ad_Topic_encoded` defaults to `0`, and the record
carries no ad-topic frequency feature. -/
theorem unseen_ad_topic_default (a : Artifacts) (inp : RawInput)
    (row : List (String × Rat)) (h : buildInputData a inp = some row)
    (e : LabelEncoder) (he : a.label_encoders.lookup "ad_topic" = some e)
    (hm : inp.ad_topic ∉ e.classes) :
    row.lookup "Ad_Topic_encoded" = some 0 ∧
    "Ad_Topic_frequency" ∉ row.map Prod.fst := by
  obtain ⟨cf, cof, hcf, hcof, hrow⟩ := buildInputData_eq_some a inp row h
  subst hrow
  refine ⟨?_, by simp⟩
  simp [List.lookup_cons, encLookup, he, transform_eq_none hm]

/-- C10 witness: the sample bundle with ad topic "Quantum", unseen. -/
theorem unseen_ad_topic_default_witness :
    ((buildInputData sampleArtifacts unseenTopicInput).getD []).lookup "Ad_Topic_encoded"
        = some 0 ∧
    "Ad_Topic_frequency" ∉
      ((buildInputData sampleArtifacts unseenTopicInput).getD []).map Prod.fst :=
  unseen_ad_topic_default sampleArtifacts unseenTopicInput
    ((buildInputData sampleArtifacts unseenTopicInput).getD []) rfl
    sampleAdEnc rfl (by decide)

end CTRApp
